import Mathlib

/-!
Verification of the byceps event-announcement subsystem (webhook dispatch).

The definitions below are a shallow embedding of the announcement pipeline:

* `byceps/announce/helpers.py` — webhook selection, scope matching, payload
  assembly, and the dispatcher `call_webhook`;
* `byceps/announce/irc/user.py` and `byceps/announce/irc/user_badge.py` —
  the announcers for user-account and badge events;
* `byceps/blueprints/admin/webhook/views.py` — the admin create/update/test
  operations.

Side effects are made explicit: logging becomes a list of warning strings,
the HTTP layer becomes an oracle `net : HttpPost → PostOutcome`, a Python
exception escaping a function becomes an `Option`/`none` (for lookup failures
such as `KeyError`) or an explicit error component.  Parts of the repository
that the pipeline calls into but whose sources are not part of this tree
(the webhook registry service, the user/badge services, the job queue, the
IRC send wiring) are modelled from the specification and marked as such in
their doc comments.
-/

namespace Byceps

/-- JSON values appearing in webhook payloads: strings and null (the image of
Python `None` under JSON serialization). -/
inductive JsonValue where
  | str : String → JsonValue
  | null : JsonValue
deriving DecidableEq, Repr

/-- A Python string-valued dict, embedded as an association list; `lookupField`
is `d.get(key)` (returning `None` when the key is absent). -/
def lookupField (fields : List (String × String)) (key : String) : Option String :=
  (fields.find? (fun p => p.1 == key)).map (fun p => p.2)

/-- Python truthiness of an optional string: `None` and the empty string are
falsy, every other string is truthy. -/
def pyTruthyStr : Option String → Bool
  | some s => s != ""
  | none => false

/-- JSON serialization of an optional string field: `None` becomes `null`. -/
def jsonOfOption : Option String → JsonValue
  | some s => JsonValue.str s
  | none => JsonValue.null

/-- Python `str.lstrip()`: drop leading whitespace. -/
def lstrip (s : String) : String :=
  String.mk (s.data.dropWhile (fun c => c.isWhitespace))

/-- Python `str.rstrip()`: drop trailing whitespace. -/
def rstrip (s : String) : String :=
  String.mk ((s.data.reverse.dropWhile (fun c => c.isWhitespace)).reverse)

/-- Python `str.strip()`: drop whitespace on both ends. -/
def strip (s : String) : String :=
  lstrip (rstrip s)

/-- Modelled from the spec: `OutgoingWebhook`
(`byceps.services.webhooks.transfer.models`, not part of the sources): a
configured delivery target with a unique id, a scope (a type/id pair, absent
when not configured), a selector set of event-type names, a format tag, a
destination URL, an enabled flag, an optional text prefix, optional free-form
extra fields (e.g. an IRC channel name), and an optional description. -/
structure OutgoingWebhook where
  id : String
  scope : Option String
  scope_id : Option String
  event_selectors : List String
  format : String
  url : String
  textPrefix : Option String
  extra_fields : List (String × String)
  description : Option String
  enabled : Bool
deriving DecidableEq, Repr

/-- Modelled from the spec: `webhook_service.get_enabled_outgoing_webhooks`
(`byceps.services.webhooks.service`, not part of the sources).  The registry
"exposes lookup by (event type name, format) filtered to enabled webhooks",
where the selector set determines "which event types it subscribes to".  The
persistent store is embedded as the list `registry`. -/
def get_enabled_outgoing_webhooks (registry : List OutgoingWebhook)
    (event_name : String) (webhook_format : String) : List OutgoingWebhook :=
  registry.filter (fun wh =>
    wh.enabled && wh.event_selectors.contains event_name && wh.format == webhook_format)

/-- Function `get_screen_name_or_fallback` from `byceps/announce/helpers.py`: return the
screen name, or the fallback value when it is falsy (absent or empty). -/
def get_screen_name_or_fallback (screen_name : Option String) : String :=
  if pyTruthyStr screen_name then screen_name.getD "" else "Jemand"

/-- Function `get_webhooks_for_discord` from `byceps/announce/helpers.py`, applied to the
name of the event (the event-name registry `byceps.announce.events` is not part
of the sources, so callers pass the name directly). -/
def get_webhooks_for_discord (registry : List OutgoingWebhook)
    (event_name : String) : List OutgoingWebhook :=
  get_enabled_outgoing_webhooks registry event_name "discord"

/-- Lexicographic comparison of code-point sequences: the order Python uses to
compare the channel-name strings in the sort key. -/
def natListLe : List Nat → List Nat → Bool
  | [], _ => true
  | _ :: _, [] => false
  | a :: as, b :: bs =>
      if a < b then true else if b < a then false else natListLe as bs

/-- The sort key used by `get_webhooks_for_irc`, as the code-point sequence of
the channel name.  The source reads `wh.extra_fields['channel']`; the default
value is never reached on the guarded path below (all keys present), it only
makes the key total. -/
def channelSortKey (wh : OutgoingWebhook) : List Nat :=
  ((lookupField wh.extra_fields "channel").getD "").data.map Char.toNat

/-- The comparison `get_webhooks_for_irc` sorts by: channel name of the first
webhook at most channel name of the second. -/
def ircWebhookLe (a b : OutgoingWebhook) : Prop :=
  natListLe (channelSortKey a) (channelSortKey b) = true

instance : DecidableRel ircWebhookLe := fun a b =>
  inferInstanceAs (Decidable (natListLe (channelSortKey a) (channelSortKey b) = true))

/-- Function `get_webhooks_for_irc` from `byceps/announce/helpers.py`.  An empty lookup
result logs a warning and returns the empty list; otherwise the list is sorted
in place, stably, by the channel entry of each webhook (embedded as a stable
insertion sort, which agrees with the stable sort of the source).  The bracket
access `wh.extra_fields['channel']` raises `KeyError` when the key is absent,
which is embedded as `none`. -/
def get_webhooks_for_irc (registry : List OutgoingWebhook)
    (event_name : String) : Option (List OutgoingWebhook) :=
  if (get_enabled_outgoing_webhooks registry event_name "weitersager").isEmpty then
    some []
  else if (get_enabled_outgoing_webhooks registry event_name "weitersager").all
      (fun wh => (lookupField wh.extra_fields "channel").isSome) then
    some (List.insertionSort ircWebhookLe
      (get_enabled_outgoing_webhooks registry event_name "weitersager"))
  else
    none

/-- Function `match_scope` from `byceps/announce/helpers.py`: equality of both scope
components. -/
def match_scope (webhook : OutgoingWebhook) (scope : String) (scope_id : String) : Bool :=
  webhook.scope == some scope && webhook.scope_id == some scope_id

/-- Modelled from the spec: scope filtering, "when scope filtering applies" the
announcer keeps only webhooks whose scope matches the originating scope of the
event, using `match_scope` (its call sites are not part of the sources). -/
def filter_webhooks_by_scope (webhooks : List OutgoingWebhook)
    (scope : String) (scope_id : String) : List OutgoingWebhook :=
  webhooks.filter (fun wh => match_scope wh scope scope_id)

/-- The prefixing step of `call_webhook`: a truthy (non-absent, non-empty) text
prefix is prepended to the text, otherwise the text is unchanged. -/
def prefixedText (webhook : OutgoingWebhook) (text : String) : String :=
  if pyTruthyStr webhook.textPrefix then webhook.textPrefix.getD "" ++ text else text

/-- Function `_assemble_request_data` from `byceps/announce/helpers.py`.  First
component: the request payload (`none` when the format matches neither branch
and the Python function falls through returning `None`).  Second component:
the warnings logged while assembling. -/
def _assemble_request_data (webhook : OutgoingWebhook) (text : String) :
    Option (List (String × JsonValue)) × List String :=
  if webhook.format == "discord" then
    (some [("content", JsonValue.str text)], [])
  else if webhook.format == "weitersager" then
    let channel := lookupField webhook.extra_fields "channel"
    (some [("channel", jsonOfOption channel), ("text", JsonValue.str text)],
     if pyTruthyStr channel then [] else ["No channel specified with IRC webhook."])
  else
    (none, [])

/-- One HTTP POST request as issued by `requests.post(url, json=data)`. -/
structure HttpPost where
  url : String
  json : Option (List (String × JsonValue))
deriving DecidableEq, Repr

/-- Behaviour of the network on one POST: a response with some status code, or
a connection-level failure (a `requests` exception). -/
inductive PostOutcome where
  | response : Nat → PostOutcome
  | connectionError : String → PostOutcome

/-- The single request that `call_webhook` issues for a webhook and a text. -/
def deliveryPost (webhook : OutgoingWebhook) (text : String) : HttpPost :=
  { url := webhook.url
    json := (_assemble_request_data webhook (prefixedText webhook text)).1 }

/-- Result of running `call_webhook`: the requests issued, the exception that
escaped the call (if any), and the warnings logged. -/
structure CallResult where
  posts : List HttpPost
  exc : Option String
  warnings : List String
deriving DecidableEq, Repr

/-- Function `call_webhook` from `byceps/announce/helpers.py`: prepend the configured
text prefix when truthy, assemble the payload, issue exactly one POST, and
ignore the response code.  A connection failure raised by `requests.post`
propagates out of the function (`exc`). -/
def call_webhook (net : HttpPost → PostOutcome) (webhook : OutgoingWebhook)
    (text : String) : CallResult :=
  match net (deliveryPost webhook text) with
  | PostOutcome.response _ =>
      { posts := [deliveryPost webhook text]
        exc := none
        warnings := (_assemble_request_data webhook (prefixedText webhook text)).2 }
  | PostOutcome.connectionError msg =>
      { posts := [deliveryPost webhook text]
        exc := some msg
        warnings := (_assemble_request_data webhook (prefixedText webhook text)).2 }

/-- Modelled from the spec: the job queue worker (`byceps.util.jobqueue` and
the worker process are not part of the sources) executes each delivery job
independently; delivery "errors are logged, not propagated, not retried".
Returns the requests issued and the full log (warnings plus logged error). -/
def run_delivery_job (net : HttpPost → PostOutcome) (webhook : OutgoingWebhook)
    (text : String) : List HttpPost × List String :=
  match (call_webhook net webhook text).exc with
  | none =>
      ((call_webhook net webhook text).posts,
       (call_webhook net webhook text).warnings)
  | some e =>
      ((call_webhook net webhook text).posts,
       (call_webhook net webhook text).warnings ++ [e])

/-- The fixed message text of the admin test action
(`byceps/blueprints/admin/webhook/views.py`). -/
def webhook_test_text : String := "Test, test … is this thing on?!"

/-- A flash message as produced by the admin views. -/
inductive FlashMessage where
  | success : String → FlashMessage
  | error : String → FlashMessage
deriving DecidableEq, Repr

/-- The `test` view from `byceps/blueprints/admin/webhook/views.py`: call the
webhook synchronously, catch any exception and flash the raw error wrapped in
markup, flash success otherwise. -/
def test_webhook (net : HttpPost → PostOutcome) (webhook : OutgoingWebhook) :
    FlashMessage :=
  match (call_webhook net webhook webhook_test_text).exc with
  | none => FlashMessage.success "Webhook call has been successful."
  | some e =>
      FlashMessage.error
        ("Webhook call failed:" ++ "<br><pre style=\"white-space: pre-wrap;\">"
          ++ e ++ "</pre>")

/-- Modelled from the spec: a user record as returned by the user service
(`byceps.services.user.service`, not part of the sources): an id and a screen
name. -/
structure User where
  id : String
  screen_name : String
deriving DecidableEq, Repr

/-- Modelled from the spec: a badge record as returned by the user-badge
service (`byceps.services.user_badge.service`, not part of the sources): an id
and a label. -/
structure Badge where
  id : String
  label : String
deriving DecidableEq, Repr

/-- Modelled from the spec: `user_service.find_user`, a plain keyed lookup of
the persistent user store, `None` when the id is unknown. -/
def find_user (users : List User) (user_id : String) : Option User :=
  users.find? (fun u => u.id == user_id)

/-- Modelled from the spec: `user_badge_service.find_badge`, a plain keyed
lookup of the badge store. -/
def find_badge (badges : List Badge) (badge_id : String) : Option Badge :=
  badges.find? (fun b => b.id == badge_id)

/-- Modelled from the spec: the `UserAccountCreated` domain event
(`byceps.events.user`, not part of the sources): the affected user and the
optional initiator. -/
structure UserAccountCreated where
  user_id : String
  initiator_id : Option String
deriving DecidableEq, Repr

/-- Modelled from the spec: the `UserBadgeAwarded` domain event
(`byceps.events.user_badge`, not part of the sources): recipient user, badge,
and optional initiator. -/
structure UserBadgeAwarded where
  user_id : String
  badge_id : String
  initiator_id : Option String
deriving DecidableEq, Repr

/-- Modelled from the spec: the event type tag assigned to `UserBadgeAwarded`
by the event-name registry (`byceps.announce.events`, not part of the
sources). -/
def user_badge_awarded_event_name : String := "user-badge-awarded"

/-- Modelled from the spec: the organizer-log channel constant
(`byceps.announce.irc._config`, not part of the sources); the channel set is
"a fixed small enumeration (e.g. organizer log, public)". -/
def CHANNEL_ORGA_LOG : String := "orga-log"

/-- A message handed to the IRC send path: the channel set chosen by the
announcer and the composed text. -/
structure IrcMessage where
  channels : List String
  text : String
deriving DecidableEq, Repr

/-- Function `announce_user_account_created` from `byceps/announce/irc/user.py`: resolve
the user; when the event carries an initiator id (checked with `is not None`),
resolve the initiator and use its screen name, otherwise use the fallback
label; compose the text and send it on the organizer-log channel.  A failed
user lookup makes the Python function raise when the text is built
(`None.screen_name`), embedded as `none`. -/
def announce_user_account_created (users : List User)
    (event : UserAccountCreated) : Option IrcMessage :=
  match find_user users event.user_id with
  | none => none
  | some user =>
    match event.initiator_id with
    | some iid =>
      match find_user users iid with
      | none => none
      | some initiator =>
          some { channels := [CHANNEL_ORGA_LOG]
                 text := initiator.screen_name ++ " hat das Benutzerkonto \""
                   ++ user.screen_name ++ "\" angelegt." }
    | none =>
        some { channels := [CHANNEL_ORGA_LOG]
               text := "Jemand hat das Benutzerkonto \"" ++ user.screen_name
                 ++ "\" angelegt." }

/-- The initiator-resolution step of `announce_user_badge_awarded`: when the
initiator id is truthy (`if event.initiator_id:`), resolve the initiator and
use its screen name (a failed lookup makes the Python code raise, embedded as
`none`), otherwise use the fallback label. -/
def badge_awarded_initiator_label (users : List User)
    (event : UserBadgeAwarded) : Option String :=
  if pyTruthyStr event.initiator_id then
    (find_user users (event.initiator_id.getD "")).map (fun i => i.screen_name)
  else
    some "Jemand"

/-- Function `announce_user_badge_awarded` from `byceps/announce/irc/user_badge.py`:
resolve user, badge and initiator label, compose the text. -/
def announce_user_badge_awarded (users : List User) (badges : List Badge)
    (event : UserBadgeAwarded) : Option IrcMessage :=
  match find_user users event.user_id with
  | none => none
  | some user =>
    match find_badge badges event.badge_id with
    | none => none
    | some badge =>
      match badge_awarded_initiator_label users event with
      | none => none
      | some label =>
          some { channels := [CHANNEL_ORGA_LOG]
                 text := label ++ " hat das Abzeichen \"" ++ badge.label
                   ++ "\" an " ++ user.screen_name ++ " verliehen." }

/-- Modelled from the spec: the IRC send path (`byceps.util.irc.send_message`,
not part of the sources) hands the composed text to the webhook dispatcher
once per webhook from the registry lookup: the announcer "looks up applicable
webhooks by event-type name and format tag" and "for each target, the
dispatcher sends one HTTP request".  Each element of the result is one
dispatcher invocation (target webhook, text argument); `none` embeds the
lookup raising. -/
def irc_dispatcher_calls (registry : List OutgoingWebhook) (event_name : String)
    (message : IrcMessage) : Option (List (OutgoingWebhook × String)) :=
  (get_webhooks_for_irc registry event_name).map
    (fun whs => whs.map (fun wh => (wh, message.text)))

/-- End-to-end badge-awarded delivery: the announcer composes the text, the
send path dispatches it to each selected webhook. -/
def deliver_user_badge_awarded (registry : List OutgoingWebhook)
    (users : List User) (badges : List Badge) (event : UserBadgeAwarded) :
    Option (List (OutgoingWebhook × String)) :=
  match announce_user_badge_awarded users badges event with
  | none => none
  | some msg => irc_dispatcher_calls registry user_badge_awarded_event_name msg

/-- Input of the admin create form (`assemble_create_form`): the checked event
types and the text fields.  The create view reads no enabled flag and no text
prefix from the form. -/
structure WebhookCreateFormInput where
  selected_event_names : List String
  format : String
  url : String
  description : String
deriving DecidableEq, Repr

/-- Input of the admin update form (`assemble_update_form`): additionally a
text prefix and an enabled flag. -/
structure WebhookUpdateFormInput where
  selected_event_names : List String
  format : String
  url : String
  textPrefix : String
  description : String
  enabled : Bool
deriving DecidableEq, Repr

/-- The `create` view from `byceps/blueprints/admin/webhook/views.py`: the
selector set is the set of checked event names, format/url/description are
stripped, and `enabled` is hard-coded to `False`.  The persistence call
`webhook_service.create_outgoing_webhook` is modelled from the spec (the
service is not part of the sources): it stores exactly the given attributes,
and attributes not given (text prefix, extra fields, scope) are absent. -/
def create_webhook (new_id : String) (form : WebhookCreateFormInput) :
    OutgoingWebhook :=
  { id := new_id
    scope := none
    scope_id := none
    event_selectors := form.selected_event_names
    format := strip form.format
    url := strip form.url
    textPrefix := none
    extra_fields := []
    description := some (strip form.description)
    enabled := false }

/-- The `update` view from `byceps/blueprints/admin/webhook/views.py`: the
selector set, format, url and description are replaced (stripped), the text
prefix is left-stripped only, and `enabled` is taken from the form.  The
persistence call `webhook_service.update_outgoing_webhook` is modelled from
the spec: it replaces exactly the given attributes. -/
def update_webhook (webhook : OutgoingWebhook) (form : WebhookUpdateFormInput) :
    OutgoingWebhook :=
  { webhook with
    event_selectors := form.selected_event_names
    format := strip form.format
    url := strip form.url
    textPrefix := some (lstrip form.textPrefix)
    description := some (strip form.description)
    enabled := form.enabled }

/-- A network oracle that answers every POST with status 200. -/
def netOk : HttpPost → PostOutcome := fun _ => PostOutcome.response 200

/-- A network oracle on which every POST fails at the connection level. -/
def netErr : HttpPost → PostOutcome :=
  fun _ => PostOutcome.connectionError "connection refused"

/-- A concrete enabled Discord-format webhook used to instantiate theorems. -/
def discordSampleWebhook : OutgoingWebhook :=
  { id := "wh1"
    scope := some "site"
    scope_id := some "acme-2021"
    event_selectors := ["user-account-created", "user-badge-awarded"]
    format := "discord"
    url := "https://chat.example.test/hook/123"
    textPrefix := some "[X] "
    extra_fields := []
    description := some "chat"
    enabled := true }

/-- A concrete enabled IRC-format webhook with channel `#orga`. -/
def ircSampleWebhook : OutgoingWebhook :=
  { id := "wh2"
    scope := some "site"
    scope_id := some "acme-2021"
    event_selectors := ["user-account-created", "user-badge-awarded"]
    format := "weitersager"
    url := "https://irc.example.test/relay"
    textPrefix := none
    extra_fields := [("channel", "#orga")]
    description := none
    enabled := true }

/-- A second concrete enabled IRC-format webhook with channel `#abc`, which
sorts before `#orga`. -/
def ircSampleWebhookB : OutgoingWebhook :=
  { id := "wh3"
    scope := none
    scope_id := none
    event_selectors := ["user-badge-awarded"]
    format := "weitersager"
    url := "https://irc.example.test/relay2"
    textPrefix := none
    extra_fields := [("channel", "#abc")]
    description := none
    enabled := true }

/-- A concrete enabled, subscribed IRC-format webhook whose extra fields have
no channel entry at all. -/
def noChannelIrcWebhook : OutgoingWebhook :=
  { id := "wh4"
    scope := none
    scope_id := none
    event_selectors := ["user-account-created"]
    format := "weitersager"
    url := "https://irc.example.test/relay3"
    textPrefix := none
    extra_fields := []
    description := none
    enabled := true }

/-- Concrete user store used to instantiate theorems. -/
def sampleUsers : List User :=
  [{ id := "u1", screen_name := "Alice" }, { id := "u2", screen_name := "Bob" }]

/-- Concrete badge store used to instantiate theorems. -/
def sampleBadges : List Badge :=
  [{ id := "b1", label := "Helper" }]

/-- A concrete account-created event with an anonymous initiator. -/
def sampleAccountCreatedEvent : UserAccountCreated :=
  { user_id := "u1", initiator_id := none }

/-- A concrete badge-awarded event with a known recipient and badge. -/
def sampleBadgeAwardedEvent : UserBadgeAwarded :=
  { user_id := "u1", badge_id := "b1", initiator_id := some "u2" }

end Byceps

namespace Byceps

theorem mem_get_enabled_outgoing_webhooks
    {registry : List OutgoingWebhook} {event_name webhook_format : String}
    {wh : OutgoingWebhook} :
    wh ∈ get_enabled_outgoing_webhooks registry event_name webhook_format ↔
      wh ∈ registry ∧ wh.enabled = true ∧ event_name ∈ wh.event_selectors ∧
        wh.format = webhook_format := by
  simp [get_enabled_outgoing_webhooks, List.mem_filter, and_assoc]

theorem natListLe_total : ∀ as bs : List Nat,
    natListLe as bs = true ∨ natListLe bs as = true := by
  intro as
  induction as with
  | nil => intro bs; left; rfl
  | cons a as ih =>
    intro bs
    cases bs with
    | nil => right; rfl
    | cons b bs =>
      rcases Nat.lt_trichotomy a b with h | h | h
      · left; simp [natListLe, h]
      · subst h
        rcases ih bs with h | h
        · left; simp [natListLe, h]
        · right; simp [natListLe, h]
      · right; simp [natListLe, h]

theorem natListLe_trans : ∀ as bs cs : List Nat,
    natListLe as bs = true → natListLe bs cs = true → natListLe as cs = true := by
  intro as
  induction as with
  | nil => intro bs cs _ _; rfl
  | cons a as ih =>
    intro bs cs hab hbc
    cases bs with
    | nil => simp [natListLe] at hab
    | cons b bs =>
      cases cs with
      | nil => simp [natListLe] at hbc
      | cons c cs =>
        by_cases hab1 : a < b
        · by_cases hbc1 : b < c
          · simp [natListLe, Nat.lt_trans hab1 hbc1]
          · by_cases hbc2 : c < b
            · simp [natListLe, hbc1, hbc2] at hbc
            · have hbc3 : b = c := Nat.le_antisymm (Nat.le_of_not_lt hbc2) (Nat.le_of_not_lt hbc1)
              subst hbc3
              simp [natListLe, hab1]
        · by_cases hab2 : b < a
          · simp [natListLe, hab1, hab2] at hab
          · have hab3 : a = b := Nat.le_antisymm (Nat.le_of_not_lt hab2) (Nat.le_of_not_lt hab1)
            subst hab3
            simp only [natListLe, hab1, hab2, if_false] at hab
            by_cases hbc1 : a < c
            · simp [natListLe, hbc1]
            · by_cases hbc2 : c < a
              · simp [natListLe, hbc1, hbc2] at hbc
              · simp only [natListLe, hbc1, hbc2, if_false] at hbc ⊢
                exact ih bs cs hab hbc

theorem get_webhooks_for_irc_eq_some
    {registry : List OutgoingWebhook} {event_name : String}
    {whs : List OutgoingWebhook}
    (h : get_webhooks_for_irc registry event_name = some whs) :
    whs.Perm (get_enabled_outgoing_webhooks registry event_name "weitersager") ∧
    List.Pairwise ircWebhookLe whs := by
  unfold get_webhooks_for_irc at h
  by_cases h1 :
      (get_enabled_outgoing_webhooks registry event_name "weitersager").isEmpty = true
  · rw [if_pos h1] at h
    obtain rfl : ([] : List OutgoingWebhook) = whs := Option.some.inj h
    constructor
    · rw [List.isEmpty_iff.mp h1]
    · exact List.Pairwise.nil
  · by_cases h2 :
        ((get_enabled_outgoing_webhooks registry event_name "weitersager").all
          (fun wh => (lookupField wh.extra_fields "channel").isSome)) = true
    · rw [if_neg h1, if_pos h2] at h
      obtain rfl := Option.some.inj h
      haveI : IsTotal OutgoingWebhook ircWebhookLe :=
        ⟨fun a b => natListLe_total (channelSortKey a) (channelSortKey b)⟩
      haveI : IsTrans OutgoingWebhook ircWebhookLe :=
        ⟨fun a b c hab hbc =>
          natListLe_trans (channelSortKey a) (channelSortKey b) (channelSortKey c) hab hbc⟩
      exact ⟨List.perm_insertionSort _ _, List.sorted_insertionSort _ _⟩
    · rw [if_neg h1, if_neg h2] at h
      exact absurd h (by simp)

theorem call_webhook_posts (net : HttpPost → PostOutcome)
    (wh : OutgoingWebhook) (t : String) :
    (call_webhook net wh t).posts = [deliveryPost wh t] := by
  unfold call_webhook
  cases net (deliveryPost wh t) <;> rfl

theorem call_webhook_exc_of_response (net : HttpPost → PostOutcome)
    (wh : OutgoingWebhook) (t : String) (code : Nat)
    (h : net (deliveryPost wh t) = PostOutcome.response code) :
    (call_webhook net wh t).exc = none := by
  unfold call_webhook
  rw [h]

theorem call_webhook_exc_of_connectionError (net : HttpPost → PostOutcome)
    (wh : OutgoingWebhook) (t e : String)
    (h : net (deliveryPost wh t) = PostOutcome.connectionError e) :
    (call_webhook net wh t).exc = some e := by
  unfold call_webhook
  rw [h]

theorem call_webhook_warnings (net : HttpPost → PostOutcome)
    (wh : OutgoingWebhook) (t : String) :
    (call_webhook net wh t).warnings =
      (_assemble_request_data wh (prefixedText wh t)).2 := by
  unfold call_webhook
  cases net (deliveryPost wh t) <;> rfl

/-- C1: For every published event and every configured webhook, the webhook
dispatcher is invoked for that webhook only if the webhook is enabled and the
event type name is in its selector set: membership in the dispatch target
list (Discord path or IRC path) implies both; hence disabled webhooks, and
webhooks whose selector set does not contain the event type, are never
dispatched. -/
theorem dispatch_only_enabled_and_subscribed
    (registry : List OutgoingWebhook) (event_name : String)
    (wh : OutgoingWebhook) :
    (wh ∈ get_webhooks_for_discord registry event_name →
      wh.enabled = true ∧ event_name ∈ wh.event_selectors) ∧
    (∀ whs, get_webhooks_for_irc registry event_name = some whs → wh ∈ whs →
      wh.enabled = true ∧ event_name ∈ wh.event_selectors) := by
  constructor
  · intro hmem
    unfold get_webhooks_for_discord at hmem
    have h := mem_get_enabled_outgoing_webhooks.mp hmem
    exact ⟨h.2.1, h.2.2.1⟩
  · intro whs hsome hmem
    have hperm := (get_webhooks_for_irc_eq_some hsome).1
    have h := mem_get_enabled_outgoing_webhooks.mp (hperm.mem_iff.mp hmem)
    exact ⟨h.2.1, h.2.2.1⟩

theorem dispatch_only_enabled_and_subscribed_witness :
    (discordSampleWebhook.enabled = true ∧
      "user-account-created" ∈ discordSampleWebhook.event_selectors) ∧
    (ircSampleWebhook.enabled = true ∧
      "user-account-created" ∈ ircSampleWebhook.event_selectors) :=
  ⟨(dispatch_only_enabled_and_subscribed [discordSampleWebhook]
      "user-account-created" discordSampleWebhook).1 (by decide),
   (dispatch_only_enabled_and_subscribed [ircSampleWebhook]
      "user-account-created" ircSampleWebhook).2 [ircSampleWebhook]
      (by decide) (by decide)⟩

/-- C2: Whenever scope filtering applies, a webhook fires only when its scope
matches the originating scope of the event: `match_scope` holds exactly when
both scope components are equal, and every webhook surviving the scope filter
has the scope type and scope id of the event. -/
theorem scope_filter_requires_matching_scope
    (webhooks : List OutgoingWebhook) (wh : OutgoingWebhook)
    (scope scope_id : String) :
    (match_scope wh scope scope_id = true ↔
      wh.scope = some scope ∧ wh.scope_id = some scope_id) ∧
    (wh ∈ filter_webhooks_by_scope webhooks scope scope_id →
      wh.scope = some scope ∧ wh.scope_id = some scope_id) := by
  constructor
  · simp [match_scope]
  · intro hmem
    simp only [filter_webhooks_by_scope, List.mem_filter] at hmem
    have h := hmem.2
    simpa [match_scope] using h

theorem scope_filter_requires_matching_scope_witness :
    discordSampleWebhook.scope = some "site" ∧
      discordSampleWebhook.scope_id = some "acme-2021" :=
  (scope_filter_requires_matching_scope [discordSampleWebhook]
    discordSampleWebhook "site" "acme-2021").2 (by decide)

/-- C3: `call_webhook` delivers the text with the configured text prefix
prepended when a non-empty prefix is configured and the text unchanged
otherwise; in particular a webhook with text prefix `[X] ` and message
`hello` delivers payload text `[X] hello`. -/
theorem call_webhook_text_prefixing
    (net : HttpPost → PostOutcome) (wh : OutgoingWebhook) (t p : String) :
    (wh.textPrefix = some p → p ≠ "" → prefixedText wh t = p ++ t) ∧
    (wh.textPrefix = none ∨ wh.textPrefix = some "" → prefixedText wh t = t) ∧
    (call_webhook net { wh with textPrefix := some "[X] ", format := "discord" }
        "hello").posts =
      [{ url := wh.url, json := some [("content", JsonValue.str "[X] hello")] }] := by
  refine ⟨?_, ?_, ?_⟩
  · intro hp hne
    simp [prefixedText, hp, pyTruthyStr, hne]
  · intro hp
    rcases hp with hp | hp <;> simp [prefixedText, hp, pyTruthyStr]
  · rw [call_webhook_posts]
    simp [deliveryPost, _assemble_request_data, prefixedText, pyTruthyStr]

theorem call_webhook_text_prefixing_witness :
    (prefixedText discordSampleWebhook "hello" = "[X] " ++ "hello") ∧
    (prefixedText ircSampleWebhook "hello" = "hello") ∧
    (call_webhook netOk
        { discordSampleWebhook with textPrefix := some "[X] ", format := "discord" }
        "hello").posts =
      [{ url := discordSampleWebhook.url,
         json := some [("content", JsonValue.str "[X] hello")] }] :=
  ⟨(call_webhook_text_prefixing netOk discordSampleWebhook "hello" "[X] ").1
      rfl (by decide),
   (call_webhook_text_prefixing netOk ircSampleWebhook "hello" "").2.1
      (Or.inl rfl),
   (call_webhook_text_prefixing netOk discordSampleWebhook "hello" "[X] ").2.2⟩

/-- C4: the assembled request payload is exactly a one-entry content object
for the discord format, and exactly a channel/text object for the weitersager
format, with no other keys. -/
theorem assemble_request_data_shape (wh : OutgoingWebhook) (t : String) :
    (wh.format = "discord" →
      (_assemble_request_data wh t).1 = some [("content", JsonValue.str t)]) ∧
    (wh.format = "weitersager" →
      (_assemble_request_data wh t).1 =
        some [("channel", jsonOfOption (lookupField wh.extra_fields "channel")),
              ("text", JsonValue.str t)]) := by
  constructor <;> intro h <;> simp [_assemble_request_data, h]

theorem assemble_request_data_shape_witness :
    (_assemble_request_data discordSampleWebhook "hi").1 =
      some [("content", JsonValue.str "hi")] ∧
    (_assemble_request_data ircSampleWebhook "hi").1 =
      some [("channel", jsonOfOption (lookupField ircSampleWebhook.extra_fields
              "channel")),
            ("text", JsonValue.str "hi")] :=
  ⟨(assemble_request_data_shape discordSampleWebhook "hi").1 rfl,
   (assemble_request_data_shape ircSampleWebhook "hi").2 rfl⟩

/-- C5: the IRC webhook list returned for delivery is sorted by each webhook
channel name and is a permutation of the registry lookup result, so the order
is deterministic; an empty lookup result is returned as the empty list. -/
theorem irc_webhooks_sorted_by_channel
    (registry : List OutgoingWebhook) (event_name : String)
    (whs : List OutgoingWebhook)
    (h : get_webhooks_for_irc registry event_name = some whs) :
    whs.Perm (get_enabled_outgoing_webhooks registry event_name "weitersager") ∧
    List.Pairwise ircWebhookLe whs ∧
    (get_enabled_outgoing_webhooks registry event_name "weitersager" = [] →
      whs = []) := by
  obtain ⟨hperm, hsorted⟩ := get_webhooks_for_irc_eq_some h
  refine ⟨hperm, hsorted, ?_⟩
  intro hempty
  rw [hempty] at hperm
  exact List.perm_nil.mp hperm

theorem irc_webhooks_sorted_by_channel_witness :
    ([ircSampleWebhookB, ircSampleWebhook].Perm
      (get_enabled_outgoing_webhooks [ircSampleWebhook, ircSampleWebhookB]
        "user-badge-awarded" "weitersager")) ∧
    List.Pairwise ircWebhookLe [ircSampleWebhookB, ircSampleWebhook] ∧
    (get_enabled_outgoing_webhooks [ircSampleWebhook, ircSampleWebhookB]
        "user-badge-awarded" "weitersager" = [] →
      [ircSampleWebhookB, ircSampleWebhook] = ([] : List OutgoingWebhook)) :=
  irc_webhooks_sorted_by_channel [ircSampleWebhook, ircSampleWebhookB]
    "user-badge-awarded" [ircSampleWebhookB, ircSampleWebhook] (by decide)

/-- C6 counterexample: an enabled IRC-format webhook, subscribed to the event
type, whose extra fields lack the channel entry entirely.  The claim says the
pipeline logs a warning and still delivers a degraded payload; instead the IRC
webhook lookup raises `KeyError` when sorting by channel (embedded as `none`),
so the pipeline aborts before any delivery and the dispatcher receives no
call. -/
theorem irc_missing_channel_key_aborts_pipeline :
    noChannelIrcWebhook.enabled = true ∧
    "user-account-created" ∈ noChannelIrcWebhook.event_selectors ∧
    noChannelIrcWebhook.format = "weitersager" ∧
    lookupField noChannelIrcWebhook.extra_fields "channel" = none ∧
    get_webhooks_for_irc [noChannelIrcWebhook] "user-account-created" = none ∧
    irc_dispatcher_calls [noChannelIrcWebhook] "user-account-created"
      { channels := [CHANNEL_ORGA_LOG], text := "hello" } = none := by
  decide

/-- C6 (amended): for every IRC-format webhook whose channel is missing or
empty under `dict.get`, the dispatcher itself logs the warning and still
delivers the degraded payload once, with a channel field that is null or the
empty string; assembling never raises.  (When the channel key is absent from
the extra fields entirely, the list retrieval `get_webhooks_for_irc` raises
`KeyError` while sorting, aborting the pipeline before the dispatcher runs —
see the counterexample.) -/
theorem irc_webhook_without_channel_degraded_delivery
    (net : HttpPost → PostOutcome) (wh : OutgoingWebhook) (t : String)
    (hfmt : wh.format = "weitersager")
    (hchan : pyTruthyStr (lookupField wh.extra_fields "channel") = false) :
    (call_webhook net wh t).warnings =
      ["No channel specified with IRC webhook."] ∧
    (call_webhook net wh t).posts =
      [{ url := wh.url
         json := some
           [("channel", jsonOfOption (lookupField wh.extra_fields "channel")),
            ("text", JsonValue.str (prefixedText wh t))] }] ∧
    (jsonOfOption (lookupField wh.extra_fields "channel") = JsonValue.null ∨
      jsonOfOption (lookupField wh.extra_fields "channel") = JsonValue.str "") := by
  refine ⟨?_, ?_, ?_⟩
  · rw [call_webhook_warnings]
    simp [_assemble_request_data, hfmt, hchan]
  · rw [call_webhook_posts]
    simp [deliveryPost, _assemble_request_data, hfmt, hchan]
  · cases hcl : lookupField wh.extra_fields "channel" with
    | none => left; rfl
    | some s =>
        right
        rw [hcl] at hchan
        simp only [pyTruthyStr, bne_eq_false_iff_eq] at hchan
        simp [jsonOfOption, hchan]

theorem irc_webhook_without_channel_degraded_delivery_witness :
    (call_webhook netOk noChannelIrcWebhook "hello").warnings =
      ["No channel specified with IRC webhook."] ∧
    (call_webhook netOk noChannelIrcWebhook "hello").posts =
      [{ url := noChannelIrcWebhook.url
         json := some
           [("channel",
             jsonOfOption (lookupField noChannelIrcWebhook.extra_fields "channel")),
            ("text", JsonValue.str (prefixedText noChannelIrcWebhook "hello"))] }] ∧
    (jsonOfOption (lookupField noChannelIrcWebhook.extra_fields "channel") =
        JsonValue.null ∨
      jsonOfOption (lookupField noChannelIrcWebhook.extra_fields "channel") =
        JsonValue.str "") :=
  irc_webhook_without_channel_degraded_delivery netOk noChannelIrcWebhook "hello"
    (by decide) (by decide)

/-- C7: for every account-created event whose initiator is absent, the
announcer composes the message with the fallback actor name `Jemand` instead
of an initiator screen name, without raising: the result is the German
sentence beginning with `Jemand`. -/
theorem user_account_created_announcement_fallback
    (users : List User) (event : UserAccountCreated) (u : User)
    (hinit : event.initiator_id = none)
    (huser : find_user users event.user_id = some u) :
    announce_user_account_created users event =
      some { channels := [CHANNEL_ORGA_LOG]
             text := "Jemand hat das Benutzerkonto \"" ++ u.screen_name
               ++ "\" angelegt." } ∧
    ∃ rest, "Jemand hat das Benutzerkonto \"" ++ u.screen_name ++ "\" angelegt."
      = "Jemand " ++ rest := by
  constructor
  · simp [announce_user_account_created, huser, hinit]
  · refine ⟨"hat das Benutzerkonto \"" ++ (u.screen_name ++ "\" angelegt."), ?_⟩
    have hlit : ("Jemand hat das Benutzerkonto \"" : String) =
        "Jemand " ++ "hat das Benutzerkonto \"" := by decide
    rw [String.append_assoc, hlit, String.append_assoc]

theorem user_account_created_announcement_fallback_witness :
    announce_user_account_created sampleUsers sampleAccountCreatedEvent =
      some { channels := [CHANNEL_ORGA_LOG]
             text := "Jemand hat das Benutzerkonto \""
               ++ (sampleUsers.get ⟨0, by decide⟩).screen_name ++ "\" angelegt." } ∧
    ∃ rest, "Jemand hat das Benutzerkonto \""
        ++ (sampleUsers.get ⟨0, by decide⟩).screen_name ++ "\" angelegt."
      = "Jemand " ++ rest :=
  user_account_created_announcement_fallback sampleUsers sampleAccountCreatedEvent
    (sampleUsers.get ⟨0, by decide⟩) rfl (by decide)

theorem announce_user_badge_awarded_text
    {users : List User} {badges : List Badge} {event : UserBadgeAwarded}
    {user : User} {badge : Badge} {msg : IrcMessage}
    (huser : find_user users event.user_id = some user)
    (hbadge : find_badge badges event.badge_id = some badge)
    (h : announce_user_badge_awarded users badges event = some msg) :
    ∃ label0, msg.text = label0 ++ " hat das Abzeichen \"" ++ badge.label
      ++ "\" an " ++ user.screen_name ++ " verliehen." := by
  unfold announce_user_badge_awarded at h
  rw [huser, hbadge] at h
  cases hl : badge_awarded_initiator_label users event with
  | none => rw [hl] at h; exact absurd h (by simp)
  | some label =>
      rw [hl] at h
      refine ⟨label, ?_⟩
      have hmsg := Option.some.inj h
      rw [← hmsg]

/-- C8: for every badge-awarded event with a known recipient and badge, every
enabled webhook subscribed to the event type (with matching format and scope)
receives exactly one dispatcher call, and every dispatched text contains both
the badge label and the recipient screen name. -/
theorem badge_awarded_one_dispatch_per_webhook
    (registry : List OutgoingWebhook) (users : List User) (badges : List Badge)
    (event : UserBadgeAwarded) (user : User) (badge : Badge)
    (wh : OutgoingWebhook) (calls : List (OutgoingWebhook × String))
    (scope scope_id : String)
    (hnodup : registry.Nodup)
    (huser : find_user users event.user_id = some user)
    (hbadge : find_badge badges event.badge_id = some badge)
    (hcalls : deliver_user_badge_awarded registry users badges event = some calls)
    (henabled : wh.enabled = true)
    (hsub : user_badge_awarded_event_name ∈ wh.event_selectors)
    (hfmt : wh.format = "weitersager")
    (hreg : wh ∈ registry)
    (_h_scope : match_scope wh scope scope_id = true) :
    (calls.map Prod.fst).count wh = 1 ∧
    ∀ c ∈ calls, ∃ s1 s2 s3,
      c.2 = s1 ++ badge.label ++ s2 ++ user.screen_name ++ s3 := by
  unfold deliver_user_badge_awarded at hcalls
  cases hann : announce_user_badge_awarded users badges event with
  | none => rw [hann] at hcalls; exact absurd hcalls (by simp)
  | some msg =>
      rw [hann] at hcalls
      unfold irc_dispatcher_calls at hcalls
      cases hwhs : get_webhooks_for_irc registry user_badge_awarded_event_name with
      | none => rw [hwhs] at hcalls; exact absurd hcalls (by simp)
      | some whs =>
          rw [hwhs] at hcalls
          simp only [Option.map_some'] at hcalls
          obtain rfl := Option.some.inj hcalls
          have hperm := (get_webhooks_for_irc_eq_some hwhs).1
          have hmemF : wh ∈ get_enabled_outgoing_webhooks registry
              user_badge_awarded_event_name "weitersager" :=
            mem_get_enabled_outgoing_webhooks.mpr ⟨hreg, henabled, hsub, hfmt⟩
          have hmemW : wh ∈ whs := hperm.mem_iff.mpr hmemF
          have hndF : (get_enabled_outgoing_webhooks registry
              user_badge_awarded_event_name "weitersager").Nodup :=
            List.Nodup.filter _ hnodup
          have hndW : whs.Nodup := hperm.symm.nodup hndF
          constructor
          · have hmap : ((whs.map (fun w => (w, msg.text))).map Prod.fst) = whs := by
              simp [List.map_map, Function.comp_def]
            rw [hmap]
            exact List.count_eq_one_of_mem hndW hmemW
          · intro c hc
            obtain ⟨w, hw, rfl⟩ := List.mem_map.mp hc
            obtain ⟨label0, htext⟩ :=
              announce_user_badge_awarded_text huser hbadge hann
            exact ⟨label0 ++ " hat das Abzeichen \"", "\" an ", " verliehen.", htext⟩

theorem badge_awarded_one_dispatch_per_webhook_witness :
    (([(ircSampleWebhook,
        "Bob hat das Abzeichen \"Helper\" an Alice verliehen.")].map Prod.fst).count
      ircSampleWebhook = 1) ∧
    ∀ c ∈ [(ircSampleWebhook,
        "Bob hat das Abzeichen \"Helper\" an Alice verliehen.")],
      ∃ s1 s2 s3, c.2 = s1 ++ "Helper" ++ s2 ++ "Alice" ++ s3 :=
  badge_awarded_one_dispatch_per_webhook
    [ircSampleWebhook, discordSampleWebhook] sampleUsers sampleBadges
    sampleBadgeAwardedEvent (sampleUsers.get ⟨0, by decide⟩)
    (sampleBadges.get ⟨0, by decide⟩) ircSampleWebhook
    [(ircSampleWebhook, "Bob hat das Abzeichen \"Helper\" an Alice verliehen.")]
    "site" "acme-2021" (by decide) (by decide) (by decide) (by decide)
    (by decide) (by decide) (by decide) (by decide) (by decide)

/-- C9: delivery is fire-and-forget: `call_webhook` issues exactly one POST,
its outcome ignores the response status code entirely (so a non-2xx response
is swallowed, with no retry), a connection failure propagates as the raw
exception that the asynchronous delivery job logs without propagating, and
the administrators synchronous test action catches any exception and reports
the raw error instead of propagating it. -/
theorem delivery_fire_and_forget
    (net : HttpPost → PostOutcome) (wh : OutgoingWebhook) (t : String)
    (code : Nat) (e : String) :
    (call_webhook net wh t).posts = [deliveryPost wh t] ∧
    (net (deliveryPost wh t) = PostOutcome.response code →
      (call_webhook net wh t).exc = none) ∧
    (net (deliveryPost wh t) = PostOutcome.connectionError e →
      (call_webhook net wh t).exc = some e ∧
      run_delivery_job net wh t =
        ([deliveryPost wh t], (call_webhook net wh t).warnings ++ [e])) ∧
    (net (deliveryPost wh webhook_test_text) = PostOutcome.connectionError e →
      test_webhook net wh = FlashMessage.error
        ("Webhook call failed:" ++ "<br><pre style=\"white-space: pre-wrap;\">"
          ++ e ++ "</pre>")) ∧
    (net (deliveryPost wh webhook_test_text) = PostOutcome.response code →
      test_webhook net wh = FlashMessage.success
        "Webhook call has been successful.") := by
  refine ⟨call_webhook_posts net wh t, ?_, ?_, ?_, ?_⟩
  · exact call_webhook_exc_of_response net wh t code
  · intro h
    have hexc := call_webhook_exc_of_connectionError net wh t e h
    refine ⟨hexc, ?_⟩
    unfold run_delivery_job
    rw [hexc, call_webhook_posts]
  · intro h
    unfold test_webhook
    rw [call_webhook_exc_of_connectionError net wh webhook_test_text e h]
  · intro h
    unfold test_webhook
    rw [call_webhook_exc_of_response net wh webhook_test_text code h]

theorem delivery_fire_and_forget_witness :
    ((call_webhook netErr discordSampleWebhook "hello").posts =
      [deliveryPost discordSampleWebhook "hello"]) ∧
    ((call_webhook netOk discordSampleWebhook "hello").exc = none) ∧
    ((call_webhook netErr discordSampleWebhook "hello").exc =
        some "connection refused" ∧
      run_delivery_job netErr discordSampleWebhook "hello" =
        ([deliveryPost discordSampleWebhook "hello"],
         (call_webhook netErr discordSampleWebhook "hello").warnings
           ++ ["connection refused"])) ∧
    (test_webhook netErr discordSampleWebhook = FlashMessage.error
      ("Webhook call failed:" ++ "<br><pre style=\"white-space: pre-wrap;\">"
        ++ "connection refused" ++ "</pre>")) ∧
    (test_webhook netOk discordSampleWebhook = FlashMessage.success
      "Webhook call has been successful.") :=
  ⟨(delivery_fire_and_forget netErr discordSampleWebhook "hello" 200
      "connection refused").1,
   (delivery_fire_and_forget netOk discordSampleWebhook "hello" 200
      "connection refused").2.1 rfl,
   (delivery_fire_and_forget netErr discordSampleWebhook "hello" 200
      "connection refused").2.2.1 rfl,
   (delivery_fire_and_forget netErr discordSampleWebhook "hello" 200
      "connection refused").2.2.2.1 rfl,
   (delivery_fire_and_forget netOk discordSampleWebhook "hello" 200
      "connection refused").2.2.2.2 rfl⟩

/-- C10: every webhook created through the admin create operation starts out
disabled (the enabled flag is hard-coded to false regardless of form input)
and without a text prefix, and therefore never appears in any registry lookup
result, so it is never dispatched; only the update operation sets the enabled
flag and the (left-stripped) text prefix. -/
theorem created_webhook_disabled_and_never_dispatched
    (new_id : String) (cform : WebhookCreateFormInput)
    (wh : OutgoingWebhook) (uform : WebhookUpdateFormInput) :
    (create_webhook new_id cform).enabled = false ∧
    (create_webhook new_id cform).textPrefix = none ∧
    (∀ registry event_name fmt,
      (get_enabled_outgoing_webhooks registry event_name fmt).count
        (create_webhook new_id cform) = 0) ∧
    (update_webhook wh uform).enabled = uform.enabled ∧
    (update_webhook wh uform).textPrefix = some (lstrip uform.textPrefix) := by
  refine ⟨rfl, rfl, ?_, rfl, rfl⟩
  intro registry event_name fmt
  rw [List.count_eq_zero]
  intro hmem
  have h := (mem_get_enabled_outgoing_webhooks.mp hmem).2.1
  simp [create_webhook] at h

end Byceps
